import Mathlib

/-!
Formal model of the Flightdata repository (bmacdonald3/Flightdata).

Shallow embedding of the approach-scoring engine
(`flight-prep-tool/approach_scoring.py`), the batch scorer helpers
(`flight-prep-tool/batch_score.py`), the flight preprocessor
(`flight-prep-tool/flight_preprocessor.py`) and the ingestion parser
(`parser.py`).

Modelling conventions:
* Python floats are modelled as exact rationals; `round` is Python's
  banker's rounding (half to even), `int(...)` truncates toward zero.
* Transcendental float functions (`math.sin`, `math.atan`, `math.pi`)
  have no exact rational counterpart; they are abstracted into a
  `TrigModel` parameter.  Every claim settled here is either universal
  in the model or evaluated on inputs whose control flow never reaches
  a transcendental call (guard branches returning 0).
* Python dict `.get` with possibly missing keys is `Option` plus the
  call-site default; Python truthiness (`None` and `0` are falsy) is
  modelled explicitly where the source relies on it.
* Human-readable detail strings are represented by their numeric
  content (deduction amounts, reason tags); the surrounding text is
  presentation only and no claim depends on it.
-/

/-- Python `round(q)`: round half to even, returning an integer. -/
def pyRound (q : ℚ) : ℤ :=
  let f : ℤ := q.floor
  let r : ℚ := q - (f : ℚ)
  if r < 1/2 then f
  else if r > 1/2 then f + 1
  else if f % 2 = 0 then f else f + 1

/-- Python `round(q, 2)`. -/
def pyRound2 (q : ℚ) : ℚ := (pyRound (q * 100) : ℚ) / 100

/-- Python `round(q, 1)`. -/
def pyRound1 (q : ℚ) : ℚ := (pyRound (q * 10) : ℚ) / 10

/-- Python `int(q)`: truncation toward zero. -/
def truncInt (q : ℚ) : ℤ :=
  if q < 0 then -((-q).floor) else q.floor

/-- Python truthiness of an optional number: `None` and `0` are falsy. -/
def truthy (x : Option ℚ) : Bool :=
  match x with
  | none => false
  | some v => v ≠ 0

/-- Python `a or b` on optional numbers: keep `a` when truthy, else `b`. -/
def pyOr (a b : Option ℚ) : Option ℚ :=
  if truthy a then a else b

/-- Abstraction of the transcendental float functions used by the
scoring engine: `sinDeg x` stands for `math.sin(math.radians(x))`,
`atan` for `math.atan`, and `pi` for `math.pi`. -/
structure TrigModel where
  sinDeg : ℚ → ℚ
  atan : ℚ → ℚ
  pi : ℚ

/-- A concrete trig model used to evaluate claims on inputs whose
control flow never reaches a transcendental call. -/
def trig0 : TrigModel := { sinDeg := fun _ => 0, atan := fun _ => 0, pi := 3 }

/-- Embedding of `DEFAULT_CONFIG` from approach_scoring.py: the named
numeric thresholds of one scoring run. -/
structure ScoringConfig where
  descent_max : ℚ
  stabilized_max : ℚ
  centerline_max : ℚ
  turn_to_final_max : ℚ
  speed_control_max : ℚ
  threshold_max : ℚ
  cfit_penalty : ℚ
  stall_penalty : ℚ
  gs_dangerous_below : ℚ
  gs_warning_below : ℚ
  gs_high_above : ℚ
  climbing_threshold : ℚ
  stabilized_speed_tol : ℚ
  stabilized_gs_tol : ℚ
  stabilized_cl_tol : ℚ
  stabilized_critical_dist : ℚ
  stabilized_late_dist : ℚ
  stabilized_ideal_dist : ℚ
  cl_max_severe : ℚ
  cl_max_warning : ℚ
  cl_avg_severe : ℚ
  cl_avg_warning : ℚ
  crosswind_allowance : ℚ
  bank_angle_steep : ℚ
  cl_crossing_threshold : ℚ
  speed_base_tolerance : ℚ
  speed_major_deviation : ℚ
  speed_minor_deviation : ℚ
  speed_out_of_tol_pct : ℚ
  threshold_target : ℚ
  threshold_dangerous_low : ℚ
  threshold_low : ℚ
  threshold_high : ℚ
  threshold_slightly_high : ℚ
  cfit_agl_threshold : ℚ
  cfit_gs_below : ℚ
  stall_agl_threshold : ℚ
  stall_margin : ℚ

/-- The `DEFAULT_CONFIG` values. -/
def defaultConfig : ScoringConfig where
  descent_max := 20
  stabilized_max := 20
  centerline_max := 20
  turn_to_final_max := 15
  speed_control_max := 15
  threshold_max := 10
  cfit_penalty := 20
  stall_penalty := 20
  gs_dangerous_below := -200
  gs_warning_below := -100
  gs_high_above := 150
  climbing_threshold := 200
  stabilized_speed_tol := 10
  stabilized_gs_tol := 150
  stabilized_cl_tol := 300
  stabilized_critical_dist := 1
  stabilized_late_dist := 2
  stabilized_ideal_dist := 3
  cl_max_severe := 500
  cl_max_warning := 300
  cl_avg_severe := 200
  cl_avg_warning := 100
  crosswind_allowance := 20
  bank_angle_steep := 30
  cl_crossing_threshold := 50
  speed_base_tolerance := 5
  speed_major_deviation := 15
  speed_minor_deviation := 10
  speed_out_of_tol_pct := 30
  threshold_target := 50
  threshold_dangerous_low := 20
  threshold_low := 35
  threshold_high := 100
  threshold_slightly_high := 75
  cfit_agl_threshold := 500
  cfit_gs_below := -50
  stall_agl_threshold := 50
  stall_margin := 10

/-- Embedding of `_cfg(config)`: use the provided snapshot or the defaults. -/
def cfgOf (config : Option ScoringConfig) : ScoringConfig :=
  match config with
  | some c => c
  | none => defaultConfig

/-- One approach point as consumed by the scorers: the dict produced by
`calc_approach_data`, with every field optional (dict keys may be
missing or `None`). -/
structure Pt where
  distNm : Option ℚ := none
  crossTrackFt : Option ℚ := none
  altitude : Option ℚ := none
  agl : Option ℚ := none
  gsDevFt : Option ℚ := none
  speed : Option ℚ := none
  vs : Option ℚ := none
  track : Option ℚ := none
  turn_rate : Option ℚ := none
  accel : Option ℚ := none
deriving DecidableEq, Repr

/-- Result of one category scorer: the `result` dict.  Deductions are
recorded by their numeric amount (the sign-carrying number at the head
of each deduction string); the category metrics are flattened into
optional fields (a category leaves the metrics it does not produce as
`none`). -/
structure CatResult where
  score : ℤ
  maxScore : ℤ
  deductions : List ℤ := []
  stabilizedDist : Option ℚ := none
  avgCrosstrack : Option ℤ := none
  maxCrosstrack : Option ℤ := none
  maxBank : Option ℚ := none
  clCrossings : Option ℕ := none
  avgSpeed : Option ℤ := none
  maxSpeedDev : Option ℤ := none
  thresholdAgl : Option (Option ℤ) := none
deriving DecidableEq, Repr

/-- Embedding of `calc_bank_angle`.  The truthiness guard is exact; the
value of the non-degenerate branch goes through the abstract `atan`
and `pi` of the trig model, mirroring
`abs(degrees(atan(speed_fts * omega_rads / 32.2)))`. -/
def calc_bank_angle (T : TrigModel) (turn_rate speed_kts : Option ℚ) : ℚ :=
  if truthy turn_rate = false ∨ truthy speed_kts = false then 0
  else
    let tr := turn_rate.getD 0
    let sp := speed_kts.getD 0
    let speed_fts := sp * (1687/1000)
    let omega_rads := tr * T.pi / 180
    |180 / T.pi * T.atan (speed_fts * omega_rads / (161/5))|

/-- Embedding of `calc_crosswind`. -/
def calc_crosswind (T : TrigModel) (wind_dir wind_speed : Option ℚ) (runway_hdg : ℚ) : ℚ :=
  match wind_dir, wind_speed with
  | some d, some w =>
    let wind_angle := |d - runway_hdg|
    let wind_angle := if wind_angle > 180 then 360 - wind_angle else wind_angle
    |T.sinDeg wind_angle * w|
  | _, _ => 0

/-- The near-threshold filter of `score_threshold_crossing`:
`p.get('distNm', 99) < 0.15`. -/
def isNearThreshold (p : Pt) : Bool := p.distNm.getD 99 < 3/20

/-- Embedding of `score_threshold_crossing`. -/
def score_threshold_crossing (sorted_pts : List Pt) (config : Option ScoringConfig) : CatResult :=
  let c := cfgOf config
  let max_pts := truncInt c.threshold_max
  let near_threshold := sorted_pts.filter isNearThreshold
  let threshold_agl : Option ℚ := near_threshold.getLast?.bind (fun p => p.agl)
  match threshold_agl with
  | some agl =>
    let r0 : CatResult :=
      { score := max_pts, maxScore := max_pts, thresholdAgl := some (some (truncInt agl)) }
    let r1 : CatResult :=
      if agl < c.threshold_dangerous_low then
        { r0 with score := r0.score - 8, deductions := [-8] }
      else if agl < c.threshold_low then
        { r0 with score := r0.score - 4, deductions := [-4] }
      else if agl > c.threshold_high then
        { r0 with score := r0.score - 5, deductions := [-5] }
      else if agl > c.threshold_slightly_high then
        { r0 with score := r0.score - 2, deductions := [-2] }
      else r0
    { r1 with score := max 0 r1.score }
  | none =>
    { score := max 0 0, maxScore := max_pts, deductions := [-max_pts],
      thresholdAgl := some none }

/-- Maximum of a list of rationals, mirroring Python `max(xs)` on a
nonempty list (`0` for the empty list, which the call sites guard). -/
def listMaxQ (l : List ℚ) : ℚ :=
  match l with
  | [] => 0
  | h :: t => t.foldl max h

/-- Minimum of a list of rationals, mirroring Python `min(xs)` on a
nonempty list (`0` for the empty list, which the call sites guard). -/
def listMinQ (l : List ℚ) : ℚ :=
  match l with
  | [] => 0
  | h :: t => t.foldl min h

/-- Embedding of `score_descent`. -/
def score_descent (sorted_pts : List Pt) (config : Option ScoringConfig) : CatResult :=
  let c := cfgOf config
  let max_pts := truncInt c.descent_max
  let gs_devs := sorted_pts.filterMap (fun p => p.gsDevFt)
  if gs_devs = [] then { score := max_pts, maxScore := max_pts }
  else
    let below_gs : ℕ := gs_devs.countP (fun d => d < c.gs_warning_below)
    let way_below : ℕ := gs_devs.countP (fun d => d < c.gs_dangerous_below)
    let above_gs : ℕ := gs_devs.countP (fun d => d > c.gs_high_above)
    let climbing : ℕ := sorted_pts.countP
      (fun p => truthy p.vs ∧ p.vs.getD 0 > c.climbing_threshold)
    let d1 : ℤ := if way_below > 0 then min 10 (2 * (way_below : ℤ)) else 0
    let ded1 : List ℤ := if way_below > 0 then [-d1] else []
    let d2 : ℤ := if below_gs > way_below then min 5 ((below_gs : ℤ) - (way_below : ℤ)) else 0
    let ded2 : List ℤ := if below_gs > way_below then [-d2] else []
    let d3 : ℤ := if above_gs > 3 then min 3 (((above_gs : ℤ) - 3) / 2) else 0
    let ded3 : List ℤ := if above_gs > 3 then [-d3] else []
    let d4 : ℤ := if climbing > 0 then min 5 (climbing : ℤ) else 0
    let ded4 : List ℤ := if climbing > 0 then [-d4] else []
    { score := max 0 (max_pts - d1 - d2 - d3 - d4), maxScore := max_pts,
      deductions := ded1 ++ ded2 ++ ded3 ++ ded4 }

/-- Stabilization criteria of one point inside `score_stabilized`:
`on_speed and on_gs and on_cl`, with the Python truthiness of
`p.get('speed')` and the call-site defaults made explicit. -/
def stabOK (c : ScoringConfig) (target_speed : ℚ) (p : Pt) : Bool :=
  (truthy p.speed ∧ |p.speed.getD 0 - target_speed| ≤ c.stabilized_speed_tol)
  ∧ (p.gsDevFt.isSome ∧ |p.gsDevFt.getD 0| < c.stabilized_gs_tol)
  ∧ |p.crossTrackFt.getD 999| < c.stabilized_cl_tol

/-- Embedding of `score_stabilized`. -/
def score_stabilized (sorted_pts : List Pt) (target_speed : ℚ)
    (config : Option ScoringConfig) : CatResult :=
  let c := cfgOf config
  let max_pts := truncInt c.stabilized_max
  let stabilized_dist : ℚ :=
    match sorted_pts.find? (stabOK c target_speed) with
    | some p => p.distNm.getD 0
    | none => 0
  let r0 : CatResult :=
    { score := max_pts, maxScore := max_pts, stabilizedDist := some stabilized_dist }
  let r1 : CatResult :=
    if stabilized_dist < c.stabilized_critical_dist then
      { r0 with score := r0.score - 15, deductions := [-15] }
    else if stabilized_dist < c.stabilized_late_dist then
      { r0 with score := r0.score - 10, deductions := [-10] }
    else if stabilized_dist < c.stabilized_ideal_dist then
      { r0 with score := r0.score - 5, deductions := [-5] }
    else r0
  { r1 with score := max 0 r1.score }

/-- Embedding of `score_centerline`. -/
def score_centerline (sorted_pts : List Pt) (crosswind : ℚ)
    (config : Option ScoringConfig) : CatResult :=
  let c := cfgOf config
  let max_pts := truncInt c.centerline_max
  let xw_margin := crosswind * c.crosswind_allowance
  let cross_tracks := sorted_pts.map (fun p => |p.crossTrackFt.getD 0|)
  if cross_tracks = [] then { score := max_pts, maxScore := max_pts }
  else
    let avg_cross := cross_tracks.sum / (cross_tracks.length : ℚ)
    let max_cross := listMaxQ cross_tracks
    let adj_max := max 0 (max_cross - xw_margin)
    let d1 : ℤ := if adj_max > c.cl_max_severe then 10
      else if adj_max > c.cl_max_warning then 5 else 0
    let d2 : ℤ := if avg_cross > c.cl_avg_severe then 5
      else if avg_cross > c.cl_avg_warning then 2 else 0
    { score := max 0 (max_pts - d1 - d2), maxScore := max_pts,
      deductions := (if d1 = 0 then [] else [-d1]) ++ (if d2 = 0 then [] else [-d2]),
      avgCrosstrack := some (truncInt avg_cross),
      maxCrosstrack := some (truncInt max_cross) }

/-- Side of the centerline relative to the crossing dead band. -/
inductive Side
  | L
  | R
deriving DecidableEq, Repr

/-- One step of the centerline-crossing loop in `score_turn_to_final`. -/
def crossingStep (dz : ℚ) (st : ℕ × Option Side) (p : Pt) : ℕ × Option Side :=
  let ct := p.crossTrackFt.getD 0
  let side : Option Side := if ct > dz then some .R else if ct < -dz then some .L else none
  let crossings :=
    match side, st.2 with
    | some s, some prev => if s ≠ prev then st.1 + 1 else st.1
    | _, _ => st.1
  let prev := if side.isSome then side else st.2
  (crossings, prev)

/-- Embedding of `score_turn_to_final`. -/
def score_turn_to_final (T : TrigModel) (sorted_pts : List Pt)
    (config : Option ScoringConfig) : CatResult :=
  let c := cfgOf config
  let max_pts := truncInt c.turn_to_final_max
  let banks := sorted_pts.map (fun p => calc_bank_angle T p.turn_rate p.speed)
  let max_bank := if banks = [] then 0 else listMaxQ banks
  let steep_banks : ℕ := banks.countP (fun b => b > c.bank_angle_steep)
  let d1 : ℤ := if steep_banks > 0 then min 10 (2 * (steep_banks : ℤ)) else 0
  let ded1 : List ℤ := if steep_banks > 0 then [-d1] else []
  let crossings := (sorted_pts.foldl (crossingStep c.cl_crossing_threshold) (0, none)).1
  let d2 : ℤ := if crossings > 1 then min 5 (2 * ((crossings : ℤ) - 1)) else 0
  let ded2 : List ℤ := if crossings > 1 then [-d2] else []
  { score := max 0 (max_pts - d1 - d2), maxScore := max_pts,
    deductions := ded1 ++ ded2,
    maxBank := some (pyRound1 max_bank), clCrossings := some crossings }

/-- Embedding of `score_speed_control`. -/
def score_speed_control (sorted_pts : List Pt) (target_speed gust : ℚ)
    (config : Option ScoringConfig) : CatResult :=
  let c := cfgOf config
  let max_pts := truncInt c.speed_control_max
  let gust_margin := if gust > 0 then gust / 2 else 0
  let speed_tol := c.speed_base_tolerance + gust_margin
  let speeds := sorted_pts.filterMap (fun p => p.speed)
  if speeds = [] then { score := max_pts, maxScore := max_pts }
  else
    let avg_speed := speeds.sum / (speeds.length : ℚ)
    let speed_devs := speeds.map (fun s => |s - target_speed|)
    let max_speed_dev := if speed_devs = [] then 0 else listMaxQ speed_devs
    let out_of_tol : ℕ := speeds.countP (fun s => |s - target_speed| > speed_tol)
    let d1 : ℤ := if max_speed_dev > c.speed_major_deviation then 8
      else if max_speed_dev > c.speed_minor_deviation then 4 else 0
    let oot_pct := c.speed_out_of_tol_pct / 100
    let d2 : ℤ := if (out_of_tol : ℚ) > (speeds.length : ℚ) * oot_pct then 4 else 0
    { score := max 0 (max_pts - d1 - d2), maxScore := max_pts,
      deductions := (if d1 = 0 then [] else [-d1]) ++ (if d2 = 0 then [] else [-d2]),
      avgSpeed := some (truncInt avg_speed),
      maxSpeedDev := some (truncInt max_speed_dev) }

/-- Kind tag of a severe penalty. -/
inductive PenType
  | CFIT
  | STALL
deriving DecidableEq, Repr

/-- One severe penalty entry: the type tag, the numeric penalty, and
the numeric content of the detail string (qualifying-point count and
the worst glideslope deviation resp. lowest speed). -/
structure Penalty where
  ptype : PenType
  penalty : ℤ
  count : ℕ
  worst : ℚ
deriving DecidableEq, Repr

/-- CFIT qualification of one point in `check_severe_penalties`:
`p.get('agl', 999) < cfit_agl_threshold and p.get('gsDevFt', 0) < cfit_gs_below`. -/
def cfitQualifies (c : ScoringConfig) (p : Pt) : Bool :=
  p.agl.getD 999 < c.cfit_agl_threshold ∧ p.gsDevFt.getD 0 < c.cfit_gs_below

/-- Stall qualification of one point in `check_severe_penalties`:
`p.get('agl', 0) > stall_agl_threshold and p.get('speed') and
p.get('speed') < dirty_stall + stall_margin`. -/
def stallQualifies (c : ScoringConfig) (dirty_stall : ℚ) (p : Pt) : Bool :=
  p.agl.getD 0 > c.stall_agl_threshold ∧ truthy p.speed
  ∧ p.speed.getD 0 < dirty_stall + c.stall_margin

/-- Embedding of `check_severe_penalties`. -/
def check_severe_penalties (sorted_pts : List Pt) (dirty_stall : ℚ)
    (config : Option ScoringConfig) : List Penalty :=
  let c := cfgOf config
  let below_gs_low := sorted_pts.filter (cfitQualifies c)
  let pen1 : List Penalty :=
    if below_gs_low = [] then []
    else [{ ptype := .CFIT, penalty := truncInt c.cfit_penalty,
            count := below_gs_low.length,
            worst := listMinQ (below_gs_low.map (fun p => p.gsDevFt.getD 0)) }]
  let near_stall := sorted_pts.filter (stallQualifies c dirty_stall)
  let pen2 : List Penalty :=
    if near_stall = [] then []
    else [{ ptype := .STALL, penalty := truncInt c.stall_penalty,
            count := near_stall.length,
            worst := listMinQ (near_stall.map (fun p => p.speed.getD 0)) }]
  pen1 ++ pen2

/-- A runway-end record as passed between `get_best_runway`,
`calc_approach_data` and `calculate_approach_score`. -/
structure Rwy where
  runway_id : Option String := none
  heading : Option ℚ := none
  threshold_lat : Option ℚ := none
  threshold_lon : Option ℚ := none
  elevation : Option ℚ := none
deriving DecidableEq, Repr

/-- A weather observation row: wind direction, speed and gust. -/
structure Metar where
  wind_dir_degrees : Option ℚ := none
  wind_speed_kt : Option ℚ := none
  wind_gust_kt : Option ℚ := none
deriving DecidableEq, Repr

/-- Type-specific reference speeds. -/
structure AircraftSpeeds where
  appr_speed : Option ℚ := none
  dirty_stall : Option ℚ := none
deriving DecidableEq, Repr

/-- Letter grades. -/
inductive Grade
  | A
  | B
  | C
  | D
  | F
deriving DecidableEq, Repr

/-- The grade assignment of `calculate_approach_score` line 365: the
thresholds are applied to the raw post-penalty `total`. -/
def gradeFromTotal (total : ℤ) : Grade :=
  if total ≥ 90 then .A
  else if total ≥ 80 then .B
  else if total ≥ 70 then .C
  else if total ≥ 60 then .D
  else .F

/-- Modelled from the spec (for comparison with the code, not taken
from the source): grade from the percentage of the post-penalty total
against `maxTotal`, using the unrounded ratio. -/
def gradeFromPercent (total maxTotal : ℚ) : Grade :=
  if total / maxTotal * 100 ≥ 90 then .A
  else if total / maxTotal * 100 ≥ 80 then .B
  else if total / maxTotal * 100 ≥ 70 then .C
  else if total / maxTotal * 100 ≥ 60 then .D
  else .F

/-- Insertion step of the stable descending sort: walk past elements
with strictly greater key, so that an element is placed before every
later element with an equal key (stability). -/
def insDesc (key : Pt → ℚ) (x : Pt) : List Pt → List Pt
  | [] => [x]
  | y :: ys => if key y > key x then y :: insDesc key x ys else x :: y :: ys

/-- Stable sort by descending key, the semantics of Python
`sorted(l, key=lambda p: -key(p))` (Python sorts are stable). -/
def pySortDesc (key : Pt → ℚ) : List Pt → List Pt
  | [] => []
  | x :: xs => insDesc key x (pySortDesc key xs)

/-- The record returned by `calculate_approach_score`.  The merged
top-level `metrics` dict is the union of the per-category metric
fields already carried by the six `CatResult`s and is not duplicated;
`scoredAt` models `datetime.utcnow().isoformat()` as the wall-clock
reading at the moment of the call. -/
structure ApproachScore where
  version : String
  descent : CatResult
  stabilized : CatResult
  centerline : CatResult
  turnToFinal : CatResult
  speedControl : CatResult
  thresholdCrossing : CatResult
  severePenalties : List Penalty
  total : ℤ
  maxTotal : ℤ
  percentage : ℤ
  grade : Grade
  windDir : Option ℚ
  windSpeed : ℚ
  windGust : ℚ
  crosswindInt : ℤ
  targetSpeed : ℚ
  dirtyStall : ℚ
  scoredAt : ℤ
deriving DecidableEq, Repr

/-- Embedding of `calculate_approach_score`.  `now` is the wall-clock
reading taken by `datetime.utcnow()` at line 381. -/
def calculate_approach_score (T : TrigModel) (approach_points : List Pt)
    (runway : Option Rwy) (metar : Option Metar)
    (aircraft_speeds : Option AircraftSpeeds) (config : Option ScoringConfig)
    (now : ℤ) : Option ApproachScore :=
  match approach_points, runway with
  | [], _ => none
  | _, none => none
  | p0 :: prest, some rwy =>
    let pts := p0 :: prest
    let c := cfgOf config
    let rwy_hdg := (pyOr rwy.heading (some 0)).getD 0
    let wind_dir := metar.bind (fun m => m.wind_dir_degrees)
    let wind_spd := match metar with
      | some m => (pyOr m.wind_speed_kt (some 0)).getD 0
      | none => 0
    let wind_gust := match metar with
      | some m => (pyOr m.wind_gust_kt (some 0)).getD 0
      | none => 0
    let target_speed := match aircraft_speeds with
      | some s => (pyOr s.appr_speed (some 70)).getD 70
      | none => 70
    let dirty_stall := match aircraft_speeds with
      | some s => (pyOr s.dirty_stall (some 45)).getD 45
      | none => 45
    let crosswind := calc_crosswind T wind_dir (some wind_spd) rwy_hdg
    let sorted_pts := pySortDesc (fun p => p.distNm.getD 0) pts
    let sDescent := score_descent sorted_pts (some c)
    let sStabilized := score_stabilized sorted_pts target_speed (some c)
    let sCenterline := score_centerline sorted_pts crosswind (some c)
    let sTurn := score_turn_to_final T sorted_pts (some c)
    let sSpeed := score_speed_control sorted_pts target_speed wind_gust (some c)
    let sThreshold := score_threshold_crossing sorted_pts (some c)
    let severe := check_severe_penalties sorted_pts dirty_stall (some c)
    let total0 := sDescent.score + sStabilized.score + sCenterline.score
      + sTurn.score + sSpeed.score + sThreshold.score
    let max_total := sDescent.maxScore + sStabilized.maxScore + sCenterline.maxScore
      + sTurn.maxScore + sSpeed.maxScore + sThreshold.maxScore
    let severe_total := (severe.map (fun p => p.penalty)).sum
    let total := max 0 (total0 - severe_total)
    let pct := pyRound ((total : ℚ) / (max_total : ℚ) * 100)
    some
      { version := "1.1"
        descent := sDescent
        stabilized := sStabilized
        centerline := sCenterline
        turnToFinal := sTurn
        speedControl := sSpeed
        thresholdCrossing := sThreshold
        severePenalties := severe
        total := total
        maxTotal := max_total
        percentage := pct
        grade := gradeFromTotal total
        windDir := wind_dir
        windSpeed := wind_spd
        windGust := wind_gust
        crosswindInt := truncInt crosswind
        targetSpeed := target_speed
        dirtyStall := dirty_stall
        scoredAt := now }

/-- Replace the wall-clock field by a fixed value, leaving every other
field of the score record unchanged. -/
def scrubTime (s : ApproachScore) : ApproachScore := { s with scoredAt := 0 }

/-- A track point of `batch_score.py` (one row of the per-flight track
query) with the derived fields added by `calculate_derivatives`.
`position_time` is in seconds; a `none` time models a missing or
unparseable timestamp (the `except: continue`). -/
structure BSPoint where
  position_time : Option ℚ := none
  latitude : Option ℚ := none
  longitude : Option ℚ := none
  altitude : Option ℚ := none
  speed : Option ℚ := none
  track : Option ℚ := none
  vertical_speed : Option ℚ := none
  accel : Option ℚ := none
  turn_rate : Option ℚ := none
deriving DecidableEq, Repr

/-- One iteration of the loop in `calculate_derivatives`: reset the
derived fields of the current point, then fill them from the previous
point when the elapsed time lies in (0, 120]. -/
def deriveStep (prev curr : BSPoint) : BSPoint :=
  let c0 := { curr with accel := none, turn_rate := none }
  match prev.position_time, curr.position_time with
  | some t1, some t2 =>
    let dt := t2 - t1
    if dt ≤ 0 ∨ dt > 120 then c0
    else
      let c1 := match prev.speed, curr.speed with
        | some s1, some s2 => { c0 with accel := some (pyRound2 ((s2 - s1) / dt)) }
        | _, _ => c0
      match prev.track, curr.track with
      | some h1, some h2 =>
        let diff := h2 - h1
        let diff2 := if diff > 180 then diff - 360
          else if diff < -180 then diff + 360 else diff
        { c1 with turn_rate := some (pyRound2 (diff2 / dt)) }
      | _, _ => c1
  | _, _ => c0

/-- Tail of `calculate_derivatives`: walk consecutive pairs.  The
in-place mutation of the source only ever overwrites `accel` and
`turn_rate`, which `deriveStep` never reads from its first argument,
so threading the updated point is equivalent. -/
def derivePairs : BSPoint → List BSPoint → List BSPoint
  | _, [] => []
  | prev, c :: rest =>
    let c2 := deriveStep prev c
    c2 :: derivePairs c2 rest

/-- Embedding of `calculate_derivatives` from batch_score.py. -/
def calculate_derivatives (points : List BSPoint) : List BSPoint :=
  if points.length < 2 then points
  else
    match points with
    | [] => []
    | p :: rest =>
      let p0 := { p with accel := none, turn_rate := none }
      p0 :: derivePairs p0 rest

/-- One row of the `v_runway_lookup` view consumed by `get_best_runway`. -/
structure RunwayRow where
  be_id : Option String := none
  be_lat : Option ℚ := none
  be_lon : Option ℚ := none
  be_true_hdg : Option ℚ := none
  be_tdze : Option ℚ := none
  re_id : Option String := none
  re_lat : Option ℚ := none
  re_lon : Option ℚ := none
  re_true_hdg : Option ℚ := none
  re_tdze : Option ℚ := none
  airport_elevation : Option ℚ := none
deriving DecidableEq, Repr

/-- The two runway ends iterated by `for end in ['be', 're']`. -/
inductive RwyEnd
  | be
  | re
deriving DecidableEq, Repr

/-- One candidate considered by the selection loop of
`get_best_runway`: a runway end with truthy coordinates and its
computed heading. -/
structure Cand where
  hdg : ℚ
  lat : ℚ
  lon : ℚ
  rid : Option String
  elev : Option ℚ
deriving DecidableEq, Repr

/-- Builds the candidate for one (row, end) pair, mirroring the body of
the nested loop in `get_best_runway`: skip ends whose latitude or
longitude is `None` or `0` (Python truthiness), compute the heading by
the great-circle bearing to the reciprocal end when its coordinates
are truthy, else fall back to the published heading (`or 0`).  The
float `_bearing` function is the abstract `bearing` parameter. -/
def candOfEnd (bearing : ℚ → ℚ → ℚ → ℚ → ℚ) (row : RunwayRow) (e : RwyEnd) : Option Cand :=
  let lat := match e with | .be => row.be_lat | .re => row.re_lat
  let lon := match e with | .be => row.be_lon | .re => row.re_lon
  let opp_lat := match e with | .be => row.re_lat | .re => row.be_lat
  let opp_lon := match e with | .be => row.re_lon | .re => row.be_lon
  let thdg := match e with | .be => row.be_true_hdg | .re => row.re_true_hdg
  let eid := match e with | .be => row.be_id | .re => row.re_id
  let tdze := match e with | .be => row.be_tdze | .re => row.re_tdze
  if truthy lat = false ∨ truthy lon = false then none
  else
    let hdg :=
      if truthy opp_lat ∧ truthy opp_lon then
        bearing (lat.getD 0) (lon.getD 0) (opp_lat.getD 0) (opp_lon.getD 0)
      else (pyOr thdg (some 0)).getD 0
    some { hdg := hdg, lat := lat.getD 0, lon := lon.getD 0, rid := eid,
           elev := pyOr tdze row.airport_elevation }

/-- The candidates of all rows in iteration order (row-major, `be`
before `re`). -/
def candidatesOf (bearing : ℚ → ℚ → ℚ → ℚ → ℚ) (rows : List RunwayRow) : List Cand :=
  rows.flatMap (fun row => [RwyEnd.be, RwyEnd.re].filterMap (candOfEnd bearing row))

/-- Shortest-path absolute angular difference as computed in the loop:
`diff = abs(hdg - last_track); if diff > 180: diff = 360 - diff`. -/
def angDiff (hdg last_track : ℚ) : ℚ :=
  let d := |hdg - last_track|
  if d > 180 then 360 - d else d

/-- The `best_rwy` record built for a winning candidate. -/
def mkBest (c : Cand) : Rwy :=
  { runway_id := c.rid, heading := some (pyRound2 c.hdg),
    threshold_lat := some c.lat, threshold_lon := some c.lon, elevation := c.elev }

/-- The selection loop of `get_best_runway`, carrying `best_diff`
(initially 360) and `best_rwy` (initially `None`). -/
def bestLoop (last_track : ℚ) : List Cand → ℚ → Option Rwy → Option Rwy
  | [], _, best => best
  | c :: rest, best_diff, best =>
    let diff := angDiff c.hdg last_track
    if diff < best_diff then bestLoop last_track rest diff (some (mkBest c))
    else bestLoop last_track rest best_diff best

/-- The fallback record built from the first row's `be` end when no
candidate was selected. -/
def fallbackRwy (row : RunwayRow) : Rwy :=
  { runway_id := row.be_id, heading := row.be_true_hdg,
    threshold_lat := row.be_lat, threshold_lon := row.be_lon,
    elevation := pyOr row.be_tdze row.airport_elevation }

/-- Embedding of `get_best_runway` (the database fetch is the `rwy_rows`
argument). -/
def get_best_runway (bearing : ℚ → ℚ → ℚ → ℚ → ℚ) (rwy_rows : List RunwayRow)
    (last_track : Option ℚ) : Option Rwy :=
  match rwy_rows with
  | [] => none
  | r0 :: rest =>
    let best := match last_track with
      | some lt => bestLoop lt (candidatesOf bearing (r0 :: rest)) 360 none
      | none => none
    match best with
    | some b => some b
    | none => some (fallbackRwy r0)

/-- One parsed flight record as uploaded by parser.py (the fields
relevant to the uniqueness key and the derived columns; the remaining
columns do not affect control flow). -/
structure FlightRec where
  gufi : Option String := none
  callsign : Option String := none
  position_time : Option ℚ := none
  altitude : Option ℤ := none
  speed : Option ℤ := none
  track : Option ℚ := none
  vertical_speed : Option ℤ := none
deriving DecidableEq, Repr

/-- The uniqueness key enforced by the `flights` table: the
(flight identifier, report timestamp) pair. -/
def recKey (f : FlightRec) : Option String × Option ℚ := (f.gufi, f.position_time)

/-- The relational store as seen by one connection: committed rows and
the uncommitted rows of the open transaction.  `INSERT` checks the
uniqueness constraint against both; `rollback` drops the pending rows;
`commit` publishes them. -/
structure DBState where
  committed : List FlightRec
  pending : List FlightRec
deriving DecidableEq, Repr

/-- Embedding of `calculate_vertical_speed` from parser.py (dead code:
its call in `upload_batch` is commented out).  The database lookup of
the most recent previous row for the gufi is abstracted into the
`prev_alt` / `prev_time` arguments; a `none` result models every
`return None` path. -/
def calculate_vertical_speed (prev_alt : Option ℤ) (prev_time : Option ℚ)
    (current_alt : Option ℤ) (current_time : Option ℚ) : Option ℤ :=
  match current_alt, current_time, prev_alt, prev_time with
  | some ca, some ct, some pa, some pt =>
    let elapsed_seconds := ct - pt
    if elapsed_seconds ≤ 0 then none
    else some (pyRound ((((ca - pa) : ℤ) : ℚ) / elapsed_seconds * 60))
  | _, _, _, _ => none

/-- Result of `upload_batch`: the connection state after the final
`commit`, the returned `count`, and the logged `skipped` number. -/
structure UploadResult where
  db : DBState
  count : ℕ
  skipped : ℕ
deriving DecidableEq, Repr

/-- The per-record loop of `upload_batch`: overwrite `vertical_speed`
with `None` (the `calculate_vertical_speed` call is commented out),
then attempt the insert; a uniqueness violation (`IntegrityError`) is
counted as skipped and answered with `conn.rollback()`, which discards
every pending row of the open transaction. -/
def uploadLoop : DBState → ℕ → ℕ → List FlightRec → DBState × ℕ × ℕ
  | db, count, skipped, [] => (db, count, skipped)
  | db, count, skipped, f :: rest =>
    let f2 := { f with vertical_speed := none }
    if (db.committed ++ db.pending).any (fun g => recKey g = recKey f2) then
      uploadLoop { db with pending := [] } count (skipped + 1) rest
    else
      uploadLoop { db with pending := db.pending ++ [f2] } (count + 1) skipped rest

/-- Embedding of `upload_batch` from parser.py. -/
def upload_batch (db : DBState) (flights : List FlightRec) : UploadResult :=
  match flights with
  | [] => { db := db, count := 0, skipped := 0 }
  | _ =>
    let r := uploadLoop db 0 0 flights
    { db := { committed := r.1.committed ++ r.1.pending, pending := [] },
      count := r.2.1, skipped := r.2.2 }

/-- Python `\s` over the ASCII whitespace characters. -/
def isSpaceChar (ch : Char) : Bool :=
  ch = ' ' ∨ ch = '\t' ∨ ch = '\n' ∨ ch = '\r' ∨ ch = '\x0b' ∨ ch = '\x0c'

/-- The opening token of the record regex. -/
def openTagChars : List Char := "<message".toList

/-- The closing marker of a record block. -/
def closeTagChars : List Char := "</message>".toList

/-- Matches `<message\s[^>]*>` at the head of the input, returning the
consumed text and the remainder. -/
def matchOpen (s : List Char) : Option (List Char × List Char) :=
  if openTagChars.isPrefixOf s then
    match s.drop openTagChars.length with
    | [] => none
    | w :: rest =>
      if isSpaceChar w then
        let attrs := rest.takeWhile (fun ch => ch ≠ '>')
        match rest.drop attrs.length with
        | '>' :: rest2 => some (openTagChars ++ w :: (attrs ++ ['>']), rest2)
        | _ => none
      else none
  else none

/-- Splits the input at the first occurrence of `pat`, returning the
prefix through the end of `pat` and the remainder. -/
def splitFirst (pat : List Char) : List Char → Option (List Char × List Char)
  | [] => none
  | ch :: rest =>
    if pat.isPrefixOf (ch :: rest) then some (pat, (ch :: rest).drop pat.length)
    else
      match splitFirst pat rest with
      | some (pre, post) => some (ch :: pre, post)
      | none => none

/-- Fueled scan for all non-overlapping matches of
`<message\s[^>]*>.*?</message>` (DOTALL, lazy body), in leftmost order:
at each position try the open tag; on success the block ends at the
earliest closing marker; otherwise advance one character. -/
def scanAux : ℕ → List Char → List (List Char)
  | 0, _ => []
  | _, [] => []
  | fuel + 1, ch :: rest =>
    match matchOpen (ch :: rest) with
    | some (openTxt, afterOpen) =>
      match splitFirst closeTagChars afterOpen with
      | some (body, rest2) => (openTxt ++ body) :: scanAux fuel rest2
      | none => scanAux fuel rest
    | none => scanAux fuel rest

/-- Embedding of `re.findall(r'(<message\s[^>]*>.*?</message>)', content, re.DOTALL)`. -/
def scanMessages (s : List Char) : List (List Char) := scanAux s.length s

/-- The suffix of the input after the last occurrence of `pat`
(`content.rfind(...)` plus the marker length), or `none` when `pat`
does not occur. -/
def tailAfterLast (pat : List Char) : List Char → Option (List Char)
  | [] => none
  | ch :: rest =>
    match tailAfterLast pat rest with
    | some t => some t
    | none =>
      if pat.isPrefixOf (ch :: rest) then some ((ch :: rest).drop pat.length)
      else none

/-- Result of one extraction cycle of `process_file`: the connection
state, the file content after the cycle, and the returned count. -/
structure CycleResult where
  db : DBState
  content : List Char
  uploaded : ℕ
deriving DecidableEq, Repr

/-- Embedding of `process_file` from parser.py.  The XML field
extraction of `parse_flight` is the abstract `parse` argument (a block
that fails to parse yields `none`); the file system read/write is the
`content` field of the result.  The unreachable `none` branch of the
truncation mirrors Python `rfind` returning -1 (slice from index 9). -/
def process_file (parse : List Char → Option FlightRec) (db : DBState)
    (content : List Char) : CycleResult :=
  if content.all isSpaceChar then { db := db, content := content, uploaded := 0 }
  else
    let messages := scanMessages content
    if messages = [] then { db := db, content := content, uploaded := 0 }
    else
      let flights := messages.filterMap parse
      let res := upload_batch db flights
      if res.count > 0 then
        match tailAfterLast closeTagChars content with
        | some remaining => { db := res.db, content := remaining, uploaded := res.count }
        | none => { db := res.db, content := content.drop 9, uploaded := res.count }
      else { db := res.db, content := content, uploaded := res.count }

/-- A raw track point as consumed by the flight preprocessor. -/
structure TrackPt where
  position_time : Option ℚ := none
  altitude : Option ℚ := none
  speed : Option ℚ := none
  track : Option ℚ := none
deriving DecidableEq, Repr

/-- The ghost reasons of flight_preprocessor.py, by their string
content: `tooFewTrackPoints` is "Too few track points",
`noTrackData` is "No track data" (from `preprocess_flight`), and the
remaining constructors carry the number interpolated into their
f-string. -/
inductive GhostReason
  | tooFewTrackPoints
  | neverBelow3000 (minAgl : ℚ)
  | noDescent (altRange : ℚ)
  | lastPointTooHigh (agl : ℚ)
  | finalSpeedsTooHigh (minSpeed : ℚ)
  | noTrackData
deriving DecidableEq, Repr

/-- Python `p.get('altitude') or d`: `None` and `0` fall back to `d`. -/
def pyAltOr (d : ℚ) (p : TrackPt) : ℚ :=
  if truthy p.altitude then p.altitude.getD 0 else d

/-- Embedding of `detect_ghost_flight` (the unused `arrival_airport`
parameter is omitted). -/
def detect_ghost_flight (track : List TrackPt) (airport_elevation : ℚ) :
    Bool × Option GhostReason :=
  if track.length < 5 then (true, some .tooFewTrackPoints)
  else
    let min_alt := listMinQ (track.map (pyAltOr 99999))
    let max_alt := listMaxQ (track.map (pyAltOr 0))
    let min_agl := min_alt - airport_elevation
    if min_agl > 3000 then (true, some (.neverBelow3000 min_agl))
    else
      let alt_range := max_alt - min_alt
      if alt_range < 500 then (true, some (.noDescent alt_range))
      else
        let last_alt := match track.getLast? with
          | some p => pyAltOr 99999 p
          | none => 99999
        let last_agl := last_alt - airport_elevation
        if last_agl > 2000 then (true, some (.lastPointTooHigh last_agl))
        else
          let last_speeds := (track.drop (track.length - 5)).filterMap
            (fun p => if truthy p.speed then p.speed else none)
          if last_speeds ≠ [] ∧ listMinQ last_speeds > 200 then
            (true, some (.finalSpeedsTooHigh (listMinQ last_speeds)))
          else (false, none)

/-- The ghost classification of `preprocess_flight` (lines 162-186):
the `is_ghost` / `ghost_reason` fields of its result.  An empty track
is answered directly with "No track data" before `detect_ghost_flight`
is ever consulted; the airport-elevation lookup is the
`airport_elevation` argument.  Leg assembly, which only non-ghost
flights reach, is outside the scope of the claims settled here. -/
def preprocess_flight_ghost (track : List TrackPt) (airport_elevation : ℚ) :
    Bool × Option GhostReason :=
  if track = [] then (true, some .noTrackData)
  else detect_ghost_flight track airport_elevation

/-- Concrete far approach point used by the evaluation theorems: on
speed, on glideslope, on centerline at 5 nm. -/
def ptFarC : Pt :=
  { distNm := some 5, crossTrackFt := some 0, agl := some 300,
    gsDevFt := some 0, speed := some 70 }

/-- Concrete threshold-crossing point at 0.1 nm and 50 ft AGL. -/
def ptThrC : Pt :=
  { distNm := some (1/10), crossTrackFt := some 0, agl := some 50,
    gsDevFt := some 0, speed := some 70 }

/-- Concrete threshold-crossing point at 0.1 nm and exactly 20 ft AGL. -/
def ptThr20C : Pt :=
  { distNm := some (1/10), crossTrackFt := some 0, agl := some 20,
    gsDevFt := some 0, speed := some 70 }

/-- A configuration snapshot whose category maxima sum to 50 instead of
100 (every key a legal `scoring_config` override). -/
def cfgSmall : ScoringConfig :=
  { defaultConfig with
      descent_max := 10
      stabilized_max := 10
      centerline_max := 10
      turn_to_final_max := 8
      speed_control_max := 7
      threshold_max := 5 }

/-- A runway record with heading 0. -/
def rwy0C : Rwy := { heading := some 0 }

/-- First point of the C4 pair: t=0 s, 70 kt, heading 350, 1000 ft. -/
def bp1C : BSPoint :=
  { position_time := some 0, speed := some 70, track := some 350,
    altitude := some 1000 }

/-- Second point of the C4 pair: t=10 s, 75 kt, heading 10, 1100 ft. -/
def bp2C : BSPoint :=
  { position_time := some 10, speed := some 75, track := some 10,
    altitude := some 1100 }

/-- The C4 pair as parsed upload records (same flight, consecutive
report times, climbing 100 ft over 10 s). -/
def fRec1C : FlightRec :=
  { gufi := some "N123#1", position_time := some 0, altitude := some 1000,
    speed := some 70, vertical_speed := some 7 }

/-- Companion record of `fRec1C` ten seconds later.  Its
`vertical_speed` field is deliberately populated on the parse side to
show that `upload_batch` overwrites it with `None`. -/
def fRec2C : FlightRec :=
  { gufi := some "N123#1", position_time := some 10, altitude := some 1100,
    speed := some 75, vertical_speed := some 600 }

/-- An empty connection state. -/
def dbEmptyC : DBState := { committed := [], pending := [] }

/-- A fresh record for the C7 batch. -/
def recAC : FlightRec := { gufi := some "A", position_time := some 1 }

/-- A record whose key already exists in storage. -/
def recBC : FlightRec := { gufi := some "B", position_time := some 2 }

/-- A second fresh record for the C7 batch. -/
def recCC : FlightRec := { gufi := some "C", position_time := some 3 }

/-- Storage that already holds `recBC` (committed in a prior cycle). -/
def dbPriorB : DBState := { committed := [recBC], pending := [] }

/-- A complete record block whose parse yields a fresh record. -/
def blockAC : List Char := "<message a>x</message>".toList

/-- A complete record block whose parse yields a duplicate record. -/
def blockBC : List Char := "<message b>y</message>".toList

/-- A partial trailing block (no closing marker yet). -/
def tailPartC : List Char := "<message c>part".toList

/-- The C8 buffer: two complete blocks followed by a partial tail. -/
def contentC8 : List Char := blockAC ++ blockBC ++ tailPartC

/-- Stand-in for `parse_flight` in the C8 evaluation: keys the parsed
record by the raw block text.  The XML field extraction of
`parse_flight` is outside this embedding; the extraction-cycle control
flow of `process_file` is independent of how a block maps to a record,
so any injective stand-in exercises it faithfully. -/
def parseStub (s : List Char) : Option FlightRec :=
  some { gufi := some (String.mk s), position_time := some 0 }

/-- Storage that already holds the record parsed from `blockBC`
(persisted by a previous cycle of the at-least-once design). -/
def dbPriorBlockB : DBState :=
  { committed := [{ gufi := some (String.mk blockBC), position_time := some 0 }],
    pending := [] }

/-- A track point with only an altitude, for the C5 witness. -/
def tpAltC : TrackPt := { altitude := some 1000 }

/-- An approach point that satisfies no stabilization criterion
(no speed, no glideslope sample, far off centerline), for the C10
witness. -/
def ptNoStabC : Pt := { distNm := some 4, crossTrackFt := some 5000 }

/-- A runway-lookup row with both ends valid, for the C9 witness. -/
def rowC9 : RunwayRow :=
  { be_id := some "09", be_lat := some 10, be_lon := some 20,
    re_id := some "27", re_lat := some 11, re_lon := some 21,
    airport_elevation := some 100 }

/-- A constant bearing function for the C9 witness. -/
def bear90 : ℚ → ℚ → ℚ → ℚ → ℚ := fun _ _ _ _ => 90

/-- A placeholder score record used only to name the concrete result of
an evaluation via `Option.getD`. -/
def dummyScore : ApproachScore :=
  { version := "", descent := { score := 0, maxScore := 0 },
    stabilized := { score := 0, maxScore := 0 },
    centerline := { score := 0, maxScore := 0 },
    turnToFinal := { score := 0, maxScore := 0 },
    speedControl := { score := 0, maxScore := 0 },
    thresholdCrossing := { score := 0, maxScore := 0 },
    severePenalties := [], total := 0, maxTotal := 0, percentage := 0,
    grade := Grade.F, windDir := none, windSpeed := 0, windGust := 0,
    crosswindInt := 0, targetSpeed := 0, dirtyStall := 0, scoredAt := 0 }

/-- The percentage-based grade rule over a maximum of exactly 100
coincides with the raw-total rule used by the code. -/
theorem gradeFromPercent_cast_hundred (t m : ℤ) (hm : m = 100) :
    gradeFromPercent (t : ℚ) (m : ℚ) = gradeFromTotal t := by
  subst hm
  have h1 : (t : ℚ) / (((100 : ℤ) : ℚ)) * 100 = (t : ℚ) := by
    rw [show ((100 : ℤ) : ℚ) = 100 by norm_num,
      div_mul_cancel₀ _ (by norm_num : (100 : ℚ) ≠ 0)]
  unfold gradeFromPercent gradeFromTotal
  rw [h1]
  by_cases h90 : (90 : ℤ) ≤ t
  · have q90 : (90 : ℚ) ≤ (t : ℚ) := by exact_mod_cast h90
    simp [ge_iff_le, q90, h90]
  · have q90 : ¬ (90 : ℚ) ≤ (t : ℚ) := by exact_mod_cast h90
    by_cases h80 : (80 : ℤ) ≤ t
    · have q80 : (80 : ℚ) ≤ (t : ℚ) := by exact_mod_cast h80
      simp [ge_iff_le, q90, h90, q80, h80]
    · have q80 : ¬ (80 : ℚ) ≤ (t : ℚ) := by exact_mod_cast h80
      by_cases h70 : (70 : ℤ) ≤ t
      · have q70 : (70 : ℚ) ≤ (t : ℚ) := by exact_mod_cast h70
        simp [ge_iff_le, q90, h90, q80, h80, q70, h70]
      · have q70 : ¬ (70 : ℚ) ≤ (t : ℚ) := by exact_mod_cast h70
        by_cases h60 : (60 : ℤ) ≤ t
        · have q60 : (60 : ℚ) ≤ (t : ℚ) := by exact_mod_cast h60
          simp [ge_iff_le, q90, h90, q80, h80, q70, h70, q60, h60]
        · have q60 : ¬ (60 : ℚ) ≤ (t : ℚ) := by exact_mod_cast h60
          simp [ge_iff_le, q90, h90, q80, h80, q70, h70, q60, h60]

/-- Claim C1, amended.  In every scoring run the letter grade is
assigned by comparing the raw post-penalty total against the fixed
thresholds 90/80/70/60 (line 365 of approach_scoring.py), not the
percentage of the total against `maxTotal`; the two rules coincide
exactly when `maxTotal` is 100. -/
theorem C1_grade_from_raw_total (T : TrigModel) (pts : List Pt) (rwy : Option Rwy)
    (metar : Option Metar) (speeds : Option AircraftSpeeds)
    (config : Option ScoringConfig) (now : ℤ) (r : ApproachScore)
    (h : calculate_approach_score T pts rwy metar speeds config now = some r) :
    r.grade = gradeFromTotal r.total ∧
    (r.maxTotal = 100 → r.grade = gradeFromPercent (r.total : ℚ) (r.maxTotal : ℚ)) := by
  cases pts with
  | nil => simp [calculate_approach_score] at h
  | cons p ps =>
    cases rwy with
    | none => simp [calculate_approach_score] at h
    | some w =>
      simp only [calculate_approach_score, Option.some.injEq] at h
      subst h
      refine ⟨rfl, fun hm => ?_⟩
      rw [gradeFromPercent_cast_hundred _ _ hm]

unseal Rat.add Rat.sub Rat.mul Rat.inv Rat.ofScientific in
/-- Claim C1, counterexample.  Under a configuration whose category
maxima sum to 50, a flawless two-point approach totals 50 of 50 — an
unrounded ratio of 100 percent, grade A under the percentage rule the
claim states — yet the code grades it F, because the raw total 50 is
below the fixed threshold 60. -/
theorem C1_grade_counterexample :
    (calculate_approach_score trig0 [ptFarC, ptThrC] (some rwy0C) none none
        (some cfgSmall) 0).map
        (fun r => (r.grade, gradeFromPercent (r.total : ℚ) (r.maxTotal : ℚ),
          r.total, r.maxTotal))
      = some (Grade.F, Grade.A, 50, 50) := by decide

unseal Rat.add Rat.sub Rat.mul Rat.inv Rat.ofScientific in
/-- Claim C1, witness: the amended theorem applied to a concrete run. -/
theorem C1_grade_witness :
    ((calculate_approach_score trig0 [ptFarC, ptThrC] (some rwy0C) none none
          (some cfgSmall) 0).getD dummyScore).grade
      = gradeFromTotal ((calculate_approach_score trig0 [ptFarC, ptThrC] (some rwy0C)
          none none (some cfgSmall) 0).getD dummyScore).total := by
  have h : calculate_approach_score trig0 [ptFarC, ptThrC] (some rwy0C) none none
      (some cfgSmall) 0
      = some ((calculate_approach_score trig0 [ptFarC, ptThrC] (some rwy0C) none none
          (some cfgSmall) 0).getD dummyScore) := by decide
  exact (C1_grade_from_raw_total trig0 [ptFarC, ptThrC] (some rwy0C) none none
    (some cfgSmall) 0 _ h).1

/-- Claim C2, amended.  The scoring engine is deterministic in every
input except the wall clock: two invocations on identical approach
points, runway, configuration snapshot, wind observation and reference
speeds produce identical score records up to the `scoredAt` timestamp
field (which records `datetime.utcnow()` at line 381). -/
theorem C2_determinism_modulo_time (T : TrigModel) (pts : List Pt) (rwy : Option Rwy)
    (metar : Option Metar) (speeds : Option AircraftSpeeds)
    (config : Option ScoringConfig) (t1 t2 : ℤ) :
    (calculate_approach_score T pts rwy metar speeds config t1).map scrubTime
      = (calculate_approach_score T pts rwy metar speeds config t2).map scrubTime := by
  cases pts <;> cases rwy <;> rfl

unseal Rat.add Rat.sub Rat.mul Rat.inv Rat.ofScientific in
/-- Claim C2, counterexample.  Two invocations on byte-identical
inputs at different wall-clock instants return different records: the
`scoredAt` field embeds the invocation time, so the records are not
byte-identical. -/
theorem C2_determinism_counterexample :
    calculate_approach_score trig0 [ptFarC, ptThrC] (some rwy0C) none none none 0
      ≠ calculate_approach_score trig0 [ptFarC, ptThrC] (some rwy0C) none none none 1 := by
  decide

/-- Claim C3, amended.  With the default thresholds, an approach whose
last point within 0.15 nm of the threshold has an AGL of exactly 20 ft
receives the −4 deduction of the "<35" band, scoring 6 of 10: the
dangerous "<20" band is a strict less-than and therefore excludes 20. -/
theorem C3_threshold_band (sorted_pts : List Pt) (p : Pt)
    (hlast : (sorted_pts.filter isNearThreshold).getLast? = some p)
    (hagl : p.agl = some 20) :
    (score_threshold_crossing sorted_pts (some defaultConfig)).score = 6 ∧
    (score_threshold_crossing sorted_pts (some defaultConfig)).deductions = [-4] := by
  have h10 : truncInt ((10 : ℚ)) = 10 := by decide
  simp only [score_threshold_crossing, hlast, Option.some_bind, hagl, cfgOf]
  norm_num [defaultConfig, h10]

unseal Rat.add Rat.sub Rat.mul Rat.inv Rat.ofScientific in
/-- Claim C3, counterexample.  A concrete approach whose last
near-threshold point crosses at exactly 20 ft AGL is deducted −4, not
the −8 the claim asserts. -/
theorem C3_threshold_counterexample :
    (score_threshold_crossing [ptFarC, ptThr20C] (some defaultConfig)).score = 6
    ∧ (score_threshold_crossing [ptFarC, ptThr20C] (some defaultConfig)).deductions = [-4]
    ∧ (score_threshold_crossing [ptFarC, ptThr20C] (some defaultConfig)).deductions ≠ [-8]
    ∧ (ptThr20C.agl = some 20 ∧ isNearThreshold ptThr20C = true) := by decide

unseal Rat.add Rat.sub Rat.mul Rat.inv Rat.ofScientific in
/-- Claim C3, witness: the amended theorem applied to a concrete
point list. -/
theorem C3_threshold_band_witness :
    (score_threshold_crossing [ptFarC, ptThr20C] (some defaultConfig)).score = 6 ∧
    (score_threshold_crossing [ptFarC, ptThr20C] (some defaultConfig)).deductions = [-4] :=
  C3_threshold_band [ptFarC, ptThr20C] ptThr20C (by decide) (by decide)

unseal Rat.add Rat.sub Rat.mul Rat.inv Rat.ofScientific in
/-- Claim C4, code bug.  For the consecutive same-flight pair
(t=0 s, 70 kt, heading 350, 1000 ft) → (t=10 s, 75 kt, heading 10,
1100 ft): `calculate_derivatives` produces acceleration 0.5 kt/s and
the wraparound-correct turn rate +2 °/s exactly as the claim states,
but the persisted vertical speed is `None` — `upload_batch` overwrites
the field with `None` because its `calculate_vertical_speed` call is
commented out, although that (dead) computation would return the
600 ft/min the claim (and the adjacent source comment) require. -/
theorem C4_vertical_speed_bug :
    ((calculate_derivatives [bp1C, bp2C]).map (fun p => (p.accel, p.turn_rate))
        = [(none, none), (some (1/2), some 2)])
    ∧ ((upload_batch dbEmptyC [fRec1C, fRec2C]).db.committed.map
        (fun f => f.vertical_speed) = [none, none])
    ∧ calculate_vertical_speed (some 1000) (some 0) (some 1100) (some 10) = some 600 := by
  decide

/-- Claim C5, amended.  Every flight with fewer than 5 points is
classified as a ghost; `detect_ghost_flight` reports the reason
"Too few track points" for all of them, the empty sequence included,
but `preprocess_flight` — the classification consumed downstream —
short-circuits the empty sequence with the distinct reason
"No track data" before `detect_ghost_flight` is consulted. -/
theorem C5_ghost_reason_rule (track : List TrackPt) (elev : ℚ) (h : track.length < 5) :
    detect_ghost_flight track elev = (true, some GhostReason.tooFewTrackPoints)
    ∧ preprocess_flight_ghost track elev
        = (true, some (if track = [] then GhostReason.noTrackData
            else GhostReason.tooFewTrackPoints)) := by
  have h1 : detect_ghost_flight track elev = (true, some GhostReason.tooFewTrackPoints) := by
    unfold detect_ghost_flight
    rw [if_pos h]
  refine ⟨h1, ?_⟩
  unfold preprocess_flight_ghost
  cases track with
  | nil => simp
  | cons a t => simp [h1]

/-- Claim C5, counterexample.  The empty point sequence has fewer than
5 points and is classified as a ghost, but with the reason
"No track data", not the "Too few track points" the claim asserts. -/
theorem C5_ghost_reason_counterexample :
    preprocess_flight_ghost [] 0 = (true, some GhostReason.noTrackData)
    ∧ GhostReason.noTrackData ≠ GhostReason.tooFewTrackPoints
    ∧ ([] : List TrackPt).length < 5 := by decide

/-- Claim C5, witness: the amended theorem applied to a two-point
track. -/
theorem C5_ghost_reason_witness :
    detect_ghost_flight [tpAltC, tpAltC] 0 = (true, some GhostReason.tooFewTrackPoints)
    ∧ preprocess_flight_ghost [tpAltC, tpAltC] 0
        = (true, some (if ([tpAltC, tpAltC] : List TrackPt) = []
            then GhostReason.noTrackData else GhostReason.tooFewTrackPoints)) :=
  C5_ghost_reason_rule [tpAltC, tpAltC] 0 (by decide)

/-- Claim C6.  In every scoring run each severe-penalty kind fires at
most once: the CFIT_RISK entries of `check_severe_penalties` are
exactly one entry of the configured penalty amount when any point
qualifies (AGL below `cfit_agl_threshold` and glideslope deviation
below `cfit_gs_below`) and none otherwise, regardless of how many
points qualify; the STALL_RISK entries likewise number at most one. -/
theorem C6_severe_penalty_single_fire (sorted_pts : List Pt) (dirty_stall : ℚ)
    (config : Option ScoringConfig) :
    (((check_severe_penalties sorted_pts dirty_stall config).filter
        (fun p => p.ptype = PenType.CFIT)).map (fun p => p.penalty)
      = if sorted_pts.any (cfitQualifies (cfgOf config))
        then [truncInt (cfgOf config).cfit_penalty] else [])
    ∧ ((check_severe_penalties sorted_pts dirty_stall config).filter
        (fun p => p.ptype = PenType.STALL)).length ≤ 1 := by
  have hconn : sorted_pts.any (cfitQualifies (cfgOf config)) = true
      ↔ sorted_pts.filter (cfitQualifies (cfgOf config)) ≠ [] := by
    rw [List.any_eq_true]
    constructor
    · rintro ⟨x, hx, hq⟩ hnil
      have hm : x ∈ sorted_pts.filter (cfitQualifies (cfgOf config)) :=
        List.mem_filter.mpr ⟨hx, hq⟩
      rw [hnil] at hm
      exact absurd hm (List.not_mem_nil x)
    · intro hne
      rcases List.exists_mem_of_ne_nil _ hne with ⟨x, hx⟩
      rcases List.mem_filter.mp hx with ⟨hx1, hx2⟩
      exact ⟨x, hx1, hx2⟩
  by_cases h1 : sorted_pts.filter (cfitQualifies (cfgOf config)) = []
  · have ha : sorted_pts.any (cfitQualifies (cfgOf config)) = false := by
      cases h : sorted_pts.any (cfitQualifies (cfgOf config)) with
      | false => rfl
      | true => exact absurd h1 (hconn.mp h)
    by_cases h2 : sorted_pts.filter (stallQualifies (cfgOf config) dirty_stall) = [] <;>
      simp [check_severe_penalties, h1, h2, ha]
  · have ha : sorted_pts.any (cfitQualifies (cfgOf config)) = true := hconn.mpr h1
    by_cases h2 : sorted_pts.filter (stallQualifies (cfgOf config) dirty_stall) = [] <;>
      simp [check_severe_penalties, h1, h2, ha]

unseal Rat.add Rat.sub Rat.mul Rat.inv Rat.ofScientific in
/-- Claim C7, code bug.  A batch [fresh A, duplicate B, fresh C]
against storage already holding B: the duplicate is counted as skipped
and does not abort the batch, but the `conn.rollback()` issued for it
discards the pending insert of A, so A is never persisted although it
is no duplicate; the returned count is 2 while only 1 new record was
actually persisted. -/
theorem C7_duplicate_rollback_bug :
    upload_batch dbPriorB [recAC, recBC, recCC]
      = { db := { committed := [recBC, recCC], pending := [] }, count := 2, skipped := 1 }
    ∧ recAC ∉ (upload_batch dbPriorB [recAC, recBC, recCC]).db.committed
    ∧ (upload_batch dbPriorB [recAC, recBC, recCC]).count
        ≠ (upload_batch dbPriorB [recAC, recBC, recCC]).db.committed.length
          - dbPriorB.committed.length := by
  decide

unseal Rat.add Rat.sub Rat.mul Rat.inv Rat.ofScientific in
/-- Claim C8, code bug.  A buffer holding the complete blocks A (fresh)
and B (duplicate of an already-persisted record) followed by a partial
tail: both blocks are extracted, the duplicate triggers the rollback
that discards the pending insert of A, so nothing is persisted in the
cycle — yet `upload_batch` returns count 1, `process_file` truncates
the buffer past the last closing marker, and the un-persisted block A
is lost permanently.  The partial tail is preserved as the claim
states, but truncation is not equivalent to at least one record having
been persisted. -/
theorem C8_truncation_without_persistence_bug :
    scanMessages contentC8 = [blockAC, blockBC]
    ∧ (process_file parseStub dbPriorBlockB contentC8).uploaded = 1
    ∧ (process_file parseStub dbPriorBlockB contentC8).db = dbPriorBlockB
    ∧ (process_file parseStub dbPriorBlockB contentC8).content = tailPartC := by
  decide

/-- The angular difference of a heading with itself is zero. -/
theorem angDiff_self (t : ℚ) : angDiff t t = 0 := by
  unfold angDiff
  simp

/-- The loop's angular difference is nonnegative for in-range headings. -/
theorem angDiff_nonneg (h t : ℚ) (hh : 0 ≤ h ∧ h < 360) (ht : 0 ≤ t ∧ t < 360) :
    0 ≤ angDiff h t := by
  simp only [angDiff]
  have habs : |h - t| < 360 := abs_lt.mpr ⟨by linarith [hh.1, hh.2, ht.1, ht.2],
    by linarith [hh.1, hh.2, ht.1, ht.2]⟩
  split_ifs with hgt
  · linarith
  · exact abs_nonneg _

/-- The loop's angular difference is below the initial best of 360 for
in-range headings. -/
theorem angDiff_lt_360 (h t : ℚ) (hh : 0 ≤ h ∧ h < 360) (ht : 0 ≤ t ∧ t < 360) :
    angDiff h t < 360 := by
  simp only [angDiff]
  have habs : |h - t| < 360 := abs_lt.mpr ⟨by linarith [hh.1, hh.2, ht.1, ht.2],
    by linarith [hh.1, hh.2, ht.1, ht.2]⟩
  have hnn : 0 ≤ |h - t| := abs_nonneg _
  split_ifs with hgt
  · linarith
  · linarith

/-- Every nonempty list has a first minimizer of a rational key: a
decomposition whose head element is strictly smaller than everything
before it and at most everything in the list. -/
theorem exists_first_min (f : Cand → ℚ) (l : List Cand) (hne : l ≠ []) :
    ∃ l1 c l2, l = l1 ++ c :: l2 ∧ (∀ x ∈ l1, f c < f x) ∧ ∀ x ∈ l, f c ≤ f x := by
  induction l with
  | nil => exact absurd rfl hne
  | cons a t ih =>
    cases t with
    | nil =>
      exact ⟨[], a, [], rfl, by intro x hx; exact absurd hx (List.not_mem_nil x),
        by intro x hx; rw [List.mem_singleton.mp hx]⟩
    | cons b t2 =>
      obtain ⟨l1, c, l2, heq, hl1, hall⟩ := ih (by simp)
      by_cases hac : f a ≤ f c
      · refine ⟨[], a, b :: t2, rfl, by intro x hx; exact absurd hx (List.not_mem_nil x), ?_⟩
        intro x hx
        rcases List.mem_cons.mp hx with hx1 | hx2
        · rw [hx1]
        · exact le_trans hac (hall x hx2)
      · refine ⟨a :: l1, c, l2, by rw [List.cons_append, heq], ?_, ?_⟩
        · intro x hx
          rcases List.mem_cons.mp hx with hx1 | hx2
          · rw [hx1]; exact lt_of_not_le hac
          · exact hl1 x hx2
        · intro x hx
          rcases List.mem_cons.mp hx with hx1 | hx2
          · rw [hx1]; exact le_of_lt (lt_of_not_le hac)
          · exact hall x hx2

/-- The selection loop never replaces its accumulator when no candidate
beats the running best difference. -/
theorem bestLoop_of_no_better (lt : ℚ) (cs : List Cand) (bd : ℚ) (acc : Option Rwy)
    (h : ∀ x ∈ cs, ¬ (angDiff x.hdg lt < bd)) : bestLoop lt cs bd acc = acc := by
  induction cs generalizing bd acc with
  | nil => rfl
  | cons a t ih =>
    unfold bestLoop
    rw [if_neg (h a (List.mem_cons_self a t))]
    exact ih bd acc (fun x hx => h x (List.mem_cons_of_mem a hx))

/-- The selection loop settles on the first minimizer: candidates
before it are strictly worse, candidates after it are no better, and
the loop answers with its record. -/
theorem bestLoop_first_min (lt : ℚ) (l1 : List Cand) (c : Cand) (l2 : List Cand)
    (bd : ℚ) (acc : Option Rwy)
    (hl1 : ∀ x ∈ l1, angDiff c.hdg lt < angDiff x.hdg lt)
    (hall : ∀ x ∈ l1 ++ c :: l2, angDiff c.hdg lt ≤ angDiff x.hdg lt)
    (hbd : angDiff c.hdg lt < bd) :
    bestLoop lt (l1 ++ c :: l2) bd acc = some (mkBest c) := by
  induction l1 generalizing bd acc with
  | nil =>
    rw [List.nil_append]
    unfold bestLoop
    rw [if_pos hbd]
    apply bestLoop_of_no_better
    intro x hx
    exact not_lt.mpr (hall x (List.mem_cons_of_mem c hx))
  | cons a t ih =>
    rw [List.cons_append]
    unfold bestLoop
    by_cases hd : angDiff a.hdg lt < bd
    · rw [if_pos hd]
      apply ih
      · intro x hx
        exact hl1 x (List.mem_cons_of_mem a hx)
      · intro x hx
        exact hall x (List.mem_cons_of_mem a hx)
      · exact hl1 a (List.mem_cons_self a t)
    · rw [if_neg hd]
      apply ih
      · intro x hx
        exact hl1 x (List.mem_cons_of_mem a hx)
      · intro x hx
        exact hall x (List.mem_cons_of_mem a hx)
      · exact hbd

/-- Claim C9.  For every nonempty candidate set (runway ends with
truthy coordinates, headings in [0, 360)) and every in-range final
track heading, `get_best_runway` returns the record of the first
candidate minimizing the shortest-path absolute angular difference —
ties resolved to the first candidate in iteration order — and whenever
some candidate's computed heading equals the final track heading
exactly, the selected candidate's angular difference is zero. -/
theorem C9_runway_selection (bearing : ℚ → ℚ → ℚ → ℚ → ℚ) (rows : List RunwayRow)
    (lt : ℚ) (hne : candidatesOf bearing rows ≠ [])
    (hlt : 0 ≤ lt ∧ lt < 360)
    (hrange : ∀ c ∈ candidatesOf bearing rows, 0 ≤ c.hdg ∧ c.hdg < 360) :
    ∃ l1 c l2,
      candidatesOf bearing rows = l1 ++ c :: l2
      ∧ (∀ x ∈ l1, angDiff c.hdg lt < angDiff x.hdg lt)
      ∧ (∀ x ∈ candidatesOf bearing rows, angDiff c.hdg lt ≤ angDiff x.hdg lt)
      ∧ get_best_runway bearing rows (some lt) = some (mkBest c)
      ∧ ((∃ x ∈ candidatesOf bearing rows, x.hdg = lt) → angDiff c.hdg lt = 0) := by
  obtain ⟨l1, c, l2, heq, hl1, hall⟩ :=
    exists_first_min (fun x => angDiff x.hdg lt) _ hne
  have hcmem : c ∈ candidatesOf bearing rows := by
    rw [heq]
    exact List.mem_append_right l1 (List.mem_cons_self c l2)
  have hnn : 0 ≤ angDiff c.hdg lt := angDiff_nonneg _ _ (hrange c hcmem) hlt
  refine ⟨l1, c, l2, heq, hl1, hall, ?_, ?_⟩
  · have hbd : angDiff c.hdg lt < 360 := angDiff_lt_360 _ _ (hrange c hcmem) hlt
    cases rows with
    | nil => exact absurd (by rfl) hne
    | cons r0 rest =>
      simp only [get_best_runway]
      rw [heq, bestLoop_first_min lt l1 c l2 360 none hl1 (heq ▸ hall) hbd]
  · rintro ⟨x, hx, hxeq⟩
    have h0 : angDiff x.hdg lt = 0 := by rw [hxeq]; exact angDiff_self lt
    have hle := hall x hx
    linarith [hle, h0, hnn]

/-- Claim C9, witness: the selection theorem applied to one concrete
row with two valid ends and an exactly matching final track heading. -/
theorem C9_runway_selection_witness :
    ∃ l1 c l2,
      candidatesOf bear90 [rowC9] = l1 ++ c :: l2
      ∧ (∀ x ∈ l1, angDiff c.hdg 90 < angDiff x.hdg 90)
      ∧ (∀ x ∈ candidatesOf bear90 [rowC9], angDiff c.hdg 90 ≤ angDiff x.hdg 90)
      ∧ get_best_runway bear90 [rowC9] (some 90) = some (mkBest c)
      ∧ ((∃ x ∈ candidatesOf bear90 [rowC9], x.hdg = 90) → angDiff c.hdg 90 = 0) :=
  C9_runway_selection bear90 [rowC9] 90 (by decide) (by norm_num) (by decide)

/-- Claim C10.  When no approach point simultaneously satisfies the
stabilized criteria while scanning far to near, and the critical
distance is positive (as in the defaults), the stabilized category
reports a stabilized distance of 0 and takes the full −15 go-around
deduction (floored at 0) — the same branch taken when stabilization
happens inside the critical distance. -/
theorem C10_stabilized_go_around (sorted_pts : List Pt) (target_speed : ℚ)
    (config : Option ScoringConfig)
    (hnone : ∀ p ∈ sorted_pts, stabOK (cfgOf config) target_speed p = false)
    (hcrit : 0 < (cfgOf config).stabilized_critical_dist) :
    (score_stabilized sorted_pts target_speed config).score
        = max 0 (truncInt (cfgOf config).stabilized_max - 15)
    ∧ (score_stabilized sorted_pts target_speed config).deductions = [-15]
    ∧ (score_stabilized sorted_pts target_speed config).stabilizedDist = some 0 := by
  have hfind : sorted_pts.find? (stabOK (cfgOf config) target_speed) = none := by
    rw [List.find?_eq_none]
    intro x hx
    simp [hnone x hx]
  simp only [score_stabilized, hfind]
  simp [hcrit]

unseal Rat.add Rat.sub Rat.mul Rat.inv Rat.ofScientific in
/-- Claim C10, witness: the go-around theorem applied to a singleton
list whose point meets no criterion. -/
theorem C10_stabilized_witness :
    (score_stabilized [ptNoStabC] 70 (some defaultConfig)).score
        = max 0 (truncInt (cfgOf (some defaultConfig)).stabilized_max - 15)
    ∧ (score_stabilized [ptNoStabC] 70 (some defaultConfig)).deductions = [-15]
    ∧ (score_stabilized [ptNoStabC] 70 (some defaultConfig)).stabilizedDist = some 0 :=
  C10_stabilized_go_around [ptNoStabC] 70 (some defaultConfig) (by decide) (by decide)
